import Mathlib

/-!
A formalisation of the helpdesk ticket reporting program in `main.py`.

The program is embedded shallowly:

* `Timestamp` models a pandas datetime value; its `day` field is the
  calendar-date part extracted by the `.dt.date` accessor.
* `RawDate` models the raw scalar passed to `pd.to_datetime`: a missing
  value (`na`, i.e. `None`/`NaN`/`NaT`), a parseable value carrying the
  timestamp it denotes (`ts`), or an unparseable value (`bad`).
* `Tickets.init` embeds `Tickets.__init__`; it can fail, since
  `pd.to_datetime` raises on an unparseable value.
* The `TicketReport` methods are embedded over the list of tickets that
  backs `self.df`.  The pandas behaviours that the methods rely on are
  modelled explicitly and faithfully:
  - `pd.DataFrame([])` (empty ticket list) has no columns, so any column
    access `df[c]` raises `KeyError`;
  - a column built only from Python `None` values has object dtype, so the
    `.dt` accessor raises `AttributeError`; with at least one timestamp
    present the column is datetime64 and `None` becomes `NaT`;
  - `groupby` sorts the (non-null) keys ascending and drops `NaT` keys;
  - `value_counts` orders by descending count, ties in first-seen order.
* `ReportGenarator.load_tickets` embeds the loader; its row comprehension
  calls the undefined name `Ticket` (the class is `Tickets`), so it raises
  `NameError` as soon as there is a row to convert.
* `ReportGenarator.generate_report` is embedded as a function producing a
  `RunTrace` of the observable effects of a run (exports performed, email
  invocation, terminating exception), since exceptions propagate.

Python `float` arithmetic in `closure_rate` is modelled by exact rationals;
Python `round` (round half to even) is modelled by `rndHalfEven`.
-/

/-- A pandas datetime value: a calendar day (as an ordinal number) plus a
time of day.  `.dt.date` keeps only the `day` part. -/
structure Timestamp where
  day : Nat
  tod : Nat
  deriving DecidableEq, Repr

/-- The Python exceptions the embedded program can raise. -/
inductive PyError where
  /-- Raised by `pd.to_datetime` on an unparseable value. -/
  | parseError
  /-- column access on a DataFrame that lacks the column (empty frame). -/
  | keyError
  /-- Raised by the `.dt` accessor on a column that is not datetime-like. -/
  | attributeError
  /-- Raised by `pd.read_excel` on a missing or malformed source file. -/
  | loadError
  /-- reference to an undefined Python name. -/
  | nameError
  deriving DecidableEq, Repr

/-- A raw date scalar as handed to `pd.to_datetime`: missing (`None`,
`NaN` or `NaT`), parseable (denoting some timestamp), or unparseable. -/
inductive RawDate where
  | na : RawDate
  | ts : Timestamp → RawDate
  | bad : RawDate
  deriving DecidableEq, Repr

/-- Model of `pd.to_datetime`: missing values become `NaT` (modelled as `none`),
parseable values become the timestamp they denote, unparseable values
raise. -/
def pd_to_datetime : RawDate → Except PyError (Option Timestamp)
  | RawDate.na => Except.ok none
  | RawDate.ts t => Except.ok (some t)
  | RawDate.bad => Except.error PyError.parseError

/-- Model of `pd.notna` on a raw scalar: false exactly on a missing value. -/
def pd_notna : RawDate → Bool
  | RawDate.na => false
  | RawDate.ts _ => true
  | RawDate.bad => true

/-- Python `str.lower` (ASCII case folding, which covers the statuses the
program handles). -/
def pyLower (s : String) : String :=
  String.mk (s.data.map Char.toLower)

/-- One ticket record, the fields set by `Tickets.__init__`:
`date_opened` is `none` when `pd.to_datetime` returned `NaT`,
`date_closed` is `none` when the raw value was missing. -/
structure Ticket where
  ticket_id : String
  date_opened : Option Timestamp
  date_closed : Option Timestamp
  category : String
  status : String
  deriving DecidableEq, Repr

/-- Model of `Tickets.__init__`: parses the opened date, parses the close date only
when it is not missing (else stores `None`), lower-cases the status. -/
def Tickets.init (ticket_id : String) (date_opened date_closed : RawDate)
    (category status : String) : Except PyError Ticket := do
  let dOpened ← pd_to_datetime date_opened
  let dClosed ← if pd_notna date_closed then pd_to_datetime date_closed else pure none
  pure { ticket_id := ticket_id, date_opened := dOpened, date_closed := dClosed,
         category := category, status := pyLower status }

/-- The number of rows of `df[df[statusCol] == closedLit]`, i.e. tickets
whose (already lower-cased) status is exactly the string in quotes on
line 28/36/42 of the source. -/
def closedCount (tickets : List Ticket) : Nat :=
  (tickets.filter (fun t => t.status == ("closed"))).length

/-- Row filtering `self.df[self.df[statusCol] == closedLit]` as an operation that can
fail: on an empty ticket list the DataFrame has no columns and the column
lookup raises `KeyError`. -/
def closedRows (tickets : List Ticket) : Except PyError (List Ticket) :=
  match tickets with
  | [] => Except.error PyError.keyError
  | _ :: _ => Except.ok (tickets.filter (fun t => t.status == ("closed")))

/-- Model of `groupby(keys).count()` over a list of (non-null) group keys: the
distinct keys in ascending order, each with its number of occurrences. -/
def groupCount (keys : List Nat) : List (Nat × Nat) :=
  List.insertionSort (fun a b => a.1 ≤ b.1)
    (keys.dedup.map (fun d => (d, keys.count d)))

/-- The iteration order of `value_counts` over the key list `cats`:
descending count, ties broken by the position of the first occurrence. -/
def vcLe (cats : List String) (a b : String × Nat) : Prop :=
  b.2 < a.2 ∨ (a.2 = b.2 ∧ cats.indexOf a.1 ≤ cats.indexOf b.1)

instance (cats : List String) : DecidableRel (vcLe cats) := fun a b => by
  unfold vcLe; exact inferInstance

/-- Model of `Series.value_counts()`: each distinct value with its multiplicity,
ordered by descending count with ties in first-seen order. -/
def valueCounts (cats : List String) : List (String × Nat) :=
  List.insertionSort (vcLe cats) (cats.dedup.map (fun c => (c, cats.count c)))

/-- Model of `TicketReport.tickets_per_day`: `df[dateOpenedCol]` raises `KeyError`
on the empty frame; otherwise group the non-`NaT` opened dates by calendar
day and count (the `date_opened` column is always datetime64, since its
values are `pd.to_datetime` results, i.e. timestamps or `NaT`). -/
def TicketReport.tickets_per_day (tickets : List Ticket) :
    Except PyError (List (Nat × Nat)) :=
  match tickets with
  | [] => Except.error PyError.keyError
  | _ :: _ =>
      Except.ok (groupCount (tickets.filterMap (fun t => t.date_opened.map (·.day))))

/-- Model of `TicketReport.closed_tickets_per_day`: filter to status `closed`
(raises `KeyError` on the empty frame), then group the close dates by day.
The `date_closed` column holds Python `None` for absent close dates, so
when every close date is absent the column has object dtype and the
`.dt.date` access raises `AttributeError`; otherwise `None` reads as `NaT`
and `groupby` drops those keys. -/
def TicketReport.closed_tickets_per_day (tickets : List Ticket) :
    Except PyError (List (Nat × Nat)) := do
  let closed ← closedRows tickets
  if tickets.all (fun t => t.date_closed.isNone) then
    Except.error PyError.attributeError
  else
    pure (groupCount (closed.filterMap (fun t => t.date_closed.map (·.day))))

/-- Model of `TicketReport.category_distribution`: `value_counts` of the category
column (`KeyError` on the empty frame). -/
def TicketReport.category_distribution (tickets : List Ticket) :
    Except PyError (List (String × Nat)) :=
  match tickets with
  | [] => Except.error PyError.keyError
  | _ :: _ => Except.ok (valueCounts (tickets.map (·.category)))

/-- Python `round(q)` to an integer: round half to even. -/
def rndHalfEven (q : ℚ) : ℤ :=
  if q - ⌊q⌋ < 1 / 2 then ⌊q⌋
  else if 1 / 2 < q - ⌊q⌋ then ⌊q⌋ + 1
  else if ⌊q⌋ % 2 = 0 then ⌊q⌋ else ⌊q⌋ + 1

/-- Python `round(q, 2)`: round half to even at two decimal digits. -/
def pyRound2 (q : ℚ) : ℚ :=
  (rndHalfEven (q * 100) : ℚ) / 100

/-- Model of `TicketReport.closure_rate`: `closed` (line 36) filters on the status
column and therefore raises `KeyError` on the empty frame before the
`if total` guard of line 37 is ever reached. -/
def TicketReport.closure_rate (tickets : List Ticket) : Except PyError ℚ := do
  let total := tickets.length
  let closed ← closedRows tickets
  pure (if total ≠ 0
        then pyRound2 (((closed.length : ℚ) / (total : ℚ)) * 100)
        else 0)

/-- The summary mapping built by `TicketReport.summary`. -/
structure Summary where
  totalTickets : Nat
  closedTickets : Nat
  closureRate : ℚ
  ticketsPerDay : List (Nat × Nat)
  closedPerDay : List (Nat × Nat)
  byCategory : List (String × Nat)
  deriving DecidableEq, Repr

/-- Model of `TicketReport.summary`: evaluates its dict entries in source order,
so the first failing entry determines the raised exception. -/
def TicketReport.summary (tickets : List Ticket) : Except PyError Summary := do
  let total := tickets.length
  let closed ← closedRows tickets
  let rate ← TicketReport.closure_rate tickets
  let perDay ← TicketReport.tickets_per_day tickets
  let closedPD ← TicketReport.closed_tickets_per_day tickets
  let byCat ← TicketReport.category_distribution tickets
  pure { totalTickets := total, closedTickets := closed.length, closureRate := rate,
         ticketsPerDay := perDay, closedPerDay := closedPD, byCategory := byCat }

/-- Default path of `TicketReport.export_to_excel`. -/
def default_excel_path : String := "helpdesk_report.xlsx"

/-- Default path of `TicketReport.export_to_pdf`. -/
def default_pdf_path : String := "helpdesk_report.pdf"

/-- One raw row of the source spreadsheet. -/
structure RawRow where
  ticket_id : String
  date_opened : RawDate
  date_closed : RawDate
  category : String
  status : String
  deriving DecidableEq, Repr

/-- Model of `ReportGenarator.load_tickets`: `pd.read_excel` fails on a missing or
malformed source (modelled as `none`); the row comprehension calls the
undefined name `Ticket` (the class is called `Tickets`), so the first row
converted raises `NameError`; an empty sheet yields the empty list without
evaluating the comprehension body. -/
def ReportGenarator.load_tickets (src : Option (List RawRow)) :
    Except PyError (List Ticket) :=
  match src with
  | none => Except.error PyError.loadError
  | some [] => Except.ok []
  | some (_ :: _) => Except.error PyError.nameError

/-- The observable effects of one `generate_report` run. -/
structure RunTrace where
  exported : Option (String × String)
  email_sent : Option (List String)
  failure : Option PyError
  deriving DecidableEq, Repr

/-- Model of `ReportGenarator.generate_report`: load, summarise, export both
artifacts, then `if self.email_config: self.send_email([excel, pdf])`.
`__init__` stores `email_config or {}`, so an absent configuration reads
as the empty dict.  Any exception propagates and ends the run there. -/
def ReportGenarator.generate_report (src : Option (List RawRow))
    (email_config : Option (List (String × String))) : RunTrace :=
  match ReportGenarator.load_tickets src with
  | Except.error e => { exported := none, email_sent := none, failure := some e }
  | Except.ok tickets =>
      match TicketReport.summary tickets with
      | Except.error e => { exported := none, email_sent := none, failure := some e }
      | Except.ok _ =>
          let excel_path := default_excel_path
          let pdf_path := default_pdf_path
          let cfg := email_config.getD []
          { exported := some (excel_path, pdf_path),
            email_sent := if cfg.isEmpty then none else some [excel_path, pdf_path],
            failure := none }

/-- Sum of the per-group counts of a grouped result. -/
def sumCounts (l : List (Nat × Nat)) : Nat :=
  (l.map Prod.snd).sum

/-- The Ticket invariant claimed by the spec (§3): the close date is null
unless the status indicates closure, and the opened date is present. -/
def specTicketInvariant (t : Ticket) : Prop :=
  (t.date_closed ≠ none → t.status = ("closed")) ∧ t.date_opened ≠ none

/-- Whether an `Except` computation succeeded. -/
def exceptOk {ε α : Type} : Except ε α → Bool
  | Except.ok _ => true
  | Except.error _ => false

/-- A ticket closed on day 6, with both dates present. -/
def tkClosedDated : Ticket :=
  { ticket_id := "1", date_opened := some ⟨5, 0⟩, date_closed := some ⟨6, 0⟩,
    category := "network", status := "closed" }

/-- A ticket with status `closed` but no close date. -/
def tkClosedNoDate : Ticket :=
  { ticket_id := "2", date_opened := some ⟨5, 3⟩, date_closed := none,
    category := "software", status := "closed" }

/-- A ticket whose opened date is `NaT` (raw opened field was missing). -/
def tkNoOpened : Ticket :=
  { ticket_id := "3", date_opened := none, date_closed := none,
    category := "network", status := "open" }

/-- The ticket `Tickets.__init__` builds from a row with both dates missing. -/
def tkNoDates : Ticket :=
  { ticket_id := "1", date_opened := none, date_closed := none,
    category := "c", status := "open" }

/-- The ticket `Tickets.__init__` builds from an open-status row that
nevertheless carries a close date. -/
def tkOpenWithClose : Ticket :=
  { ticket_id := "9", date_opened := some ⟨0, 0⟩, date_closed := some ⟨1, 0⟩,
    category := "c", status := "open" }

/-- The ticket `Tickets.__init__` builds from a row with status `Closed`
(mixed case) and no close date. -/
def tkMixedCaseClosed : Ticket :=
  { ticket_id := "10", date_opened := some ⟨0, 0⟩, date_closed := none,
    category := "c", status := "closed" }

/-- A concrete raw source row. -/
def row0 : RawRow :=
  { ticket_id := "1", date_opened := RawDate.ts ⟨5, 0⟩, date_closed := RawDate.na,
    category := "network", status := "Open" }

/-! ### Helper lemmas -/

theorem except_bind_ok {ε α β : Type} (a : α) (f : α → Except ε β) :
    (Except.ok a : Except ε α) >>= f = f a := rfl

theorem except_bind_error {ε α β : Type} (e : ε) (f : α → Except ε β) :
    (Except.error e : Except ε α) >>= f = Except.error e := rfl

theorem sumCounts_groupCount (keys : List Nat) :
    sumCounts (groupCount keys) = keys.length := by
  unfold sumCounts groupCount
  have hperm :
      ((List.insertionSort (fun a b : Nat × Nat => a.1 ≤ b.1)
          (keys.dedup.map (fun d => (d, keys.count d)))).map Prod.snd).Perm
        ((keys.dedup.map (fun d => (d, keys.count d))).map Prod.snd) :=
    (List.perm_insertionSort _ _).map _
  rw [hperm.sum_eq, List.map_map]
  simpa [Function.comp] using List.sum_map_count_dedup_eq_length keys

theorem length_filterMap_map {α β γ : Type} (g : α → Option β) (f : β → γ)
    (l : List α) :
    (l.filterMap (fun a => (g a).map f)).length = (l.filterMap g).length := by
  induction l with
  | nil => rfl
  | cons a l ih => cases h : g a <;> simp [List.filterMap_cons, h, ih]

theorem map_fst_map_pair {α β : Type} (l : List α) (f : α → β) :
    (l.map (fun c => (c, f c))).map Prod.fst = l := by
  induction l with
  | nil => rfl
  | cons x xs ih => simp [ih]

theorem closure_rate_eq (tickets : List Ticket) :
    TicketReport.closure_rate tickets =
      if tickets.isEmpty then Except.error PyError.keyError
      else Except.ok (pyRound2 (100 * (closedCount tickets : ℚ) / (tickets.length : ℚ))) := by
  cases tickets with
  | nil => rfl
  | cons a l =>
    have hred : TicketReport.closure_rate (a :: l)
        = Except.ok (if (a :: l).length ≠ 0
            then pyRound2 (((closedCount (a :: l) : ℚ) / ((a :: l).length : ℚ)) * 100)
            else 0) := rfl
    rw [hred, if_pos (by simp), List.isEmpty_cons, if_neg (by simp)]
    have harg : ((closedCount (a :: l) : ℚ) / ((a :: l).length : ℚ)) * 100
        = 100 * (closedCount (a :: l) : ℚ) / ((a :: l).length : ℚ) := by ring
    rw [harg]

theorem vcLe_total (cats : List String) :
    ∀ a b : String × Nat, vcLe cats a b ∨ vcLe cats b a := by
  intro a b
  rcases Nat.lt_trichotomy a.2 b.2 with h | h | h
  · right; left; exact h
  · rcases Nat.le_total (cats.indexOf a.1) (cats.indexOf b.1) with hi | hi
    · left; right; exact ⟨h, hi⟩
    · right; right; exact ⟨h.symm, hi⟩
  · left; left; exact h

theorem vcLe_trans (cats : List String) :
    ∀ a b c : String × Nat, vcLe cats a b → vcLe cats b c → vcLe cats a c := by
  intro a b c hab hbc
  rcases hab with h1 | ⟨h1, h1i⟩ <;> rcases hbc with h2 | ⟨h2, h2i⟩
  · left; omega
  · left; omega
  · left; omega
  · right; exact ⟨h1.trans h2, le_trans h1i h2i⟩

theorem rndHalfEven_mem (q : ℚ) :
    rndHalfEven q = ⌊q⌋ ∨ rndHalfEven q = ⌊q⌋ + 1 := by
  unfold rndHalfEven
  split_ifs <;> simp

theorem rndHalfEven_nonneg {q : ℚ} (h : 0 ≤ q) : 0 ≤ rndHalfEven q := by
  have h0 : (0 : ℤ) ≤ ⌊q⌋ := Int.le_floor.mpr (by exact_mod_cast h)
  rcases rndHalfEven_mem q with he | he <;> omega

theorem rndHalfEven_le {q : ℚ} {B : ℤ} (h : q ≤ (B : ℚ)) : rndHalfEven q ≤ B := by
  have hfl : ⌊q⌋ ≤ B := by simpa using Int.floor_le_floor h
  have hlow : (⌊q⌋ : ℚ) ≤ q := Int.floor_le q
  unfold rndHalfEven
  split_ifs with h1 h2 h3
  · exact hfl
  · have hb : (⌊q⌋ : ℚ) < (B : ℚ) := by linarith
    have : ⌊q⌋ < B := by exact_mod_cast hb
    omega
  · exact hfl
  · have h1' : (1 : ℚ) / 2 ≤ q - ⌊q⌋ := not_lt.mp h1
    have hb : (⌊q⌋ : ℚ) < (B : ℚ) := by linarith
    have : ⌊q⌋ < B := by exact_mod_cast hb
    omega

theorem pyRound2_nonneg {q : ℚ} (h : 0 ≤ q) : 0 ≤ pyRound2 q := by
  unfold pyRound2
  have h1 : (0 : ℤ) ≤ rndHalfEven (q * 100) := rndHalfEven_nonneg (by positivity)
  have h2 : (0 : ℚ) ≤ (rndHalfEven (q * 100) : ℚ) := by exact_mod_cast h1
  positivity

theorem pyRound2_le_100 {q : ℚ} (h : q ≤ 100) : pyRound2 q ≤ 100 := by
  unfold pyRound2
  have h1 : q * 100 ≤ ((10000 : ℤ) : ℚ) := by push_cast; linarith
  have h2 : rndHalfEven (q * 100) ≤ 10000 := rndHalfEven_le h1
  have h3 : (rndHalfEven (q * 100) : ℚ) ≤ 10000 := by exact_mod_cast h2
  linarith

/-! ### Claim theorems -/

/-- C1: for a non-empty ticket sequence `closure_rate()` returns
`round(100 * closedCount / totalCount, 2)` exactly as claimed, but for the
empty sequence it does not return `0`: line 36 touches the `status` column
of the empty DataFrame and raises `KeyError` before the `if total` guard
is reached. -/
theorem closure_rate_code_behavior (tickets : List Ticket) :
    TicketReport.closure_rate tickets =
      if tickets.isEmpty then Except.error PyError.keyError
      else Except.ok (pyRound2 (100 * (closedCount tickets : ℚ) / (tickets.length : ℚ))) :=
  closure_rate_eq tickets

/-- C2: on the empty ticket sequence `summary()` does not return the
all-zero summary; its second entry reads the `status` column of a
DataFrame with no columns and raises `KeyError`. -/
theorem summary_empty_keyError :
    TicketReport.summary [] = Except.error PyError.keyError := rfl

/-- C8: the load step never converts a row into a Ticket record: the row
comprehension refers to the undefined name `Ticket` (the class is
`Tickets`), so a source with at least one row raises `NameError`. -/
theorem load_tickets_nameError :
    ReportGenarator.load_tickets (some [row0]) = Except.error PyError.nameError := rfl

/-- C9: a run of `generate_report` on a one-row source with a non-empty
email configuration never reaches the email-sending step: `load_tickets`
raises `NameError` first, so nothing is exported and no email is sent
even though the configuration is non-empty. -/
theorem generate_report_nameError_skips_email :
    ReportGenarator.generate_report (some [row0]) (some [("from", "a@b")]) =
      { exported := none, email_sent := none, failure := some PyError.nameError } := rfl

/-- C6 counterexample: a missing opened date does not make construction
fail (pandas `to_datetime` turns it into `NaT`), and a parseable opened
date does not guarantee success (an unparseable close date raises).  Both
directions of the claimed equivalence fail. -/
theorem init_missing_opened_succeeds :
    Tickets.init ("1") RawDate.na RawDate.na ("c") ("open") = Except.ok tkNoDates ∧
    Tickets.init ("2") (RawDate.ts ⟨0, 0⟩) RawDate.bad ("c") ("open")
      = Except.error PyError.parseError := ⟨rfl, rfl⟩

/-- C6 amended: construction fails with a ParseError exactly when the
opened date is unparseable or the close date is present and unparseable;
a missing opened date succeeds and is stored as `NaT`. -/
theorem init_ok_iff (id : String) (ro rc : RawDate) (cat st : String) :
    exceptOk (Tickets.init id ro rc cat st) = true ↔
      ro ≠ RawDate.bad ∧ rc ≠ RawDate.bad := by
  cases ro <;> cases rc <;>
    simp [Tickets.init, pd_to_datetime, pd_notna, exceptOk, except_bind_ok,
      except_bind_error, pure, Except.pure]

/-- C10: on every non-empty ticket sequence `closure_rate()` succeeds and
returns a value between 0 and 100 inclusive (the closed rows are a subset
of all rows). -/
theorem closure_rate_bounds (tickets : List Ticket) (h : tickets ≠ []) :
    ∃ q : ℚ, TicketReport.closure_rate tickets = Except.ok q ∧ 0 ≤ q ∧ q ≤ 100 := by
  have hne : tickets.isEmpty = false := by
    cases tickets with
    | nil => exact absurd rfl h
    | cons a l => simp
  have hT : (0 : ℚ) < (tickets.length : ℚ) := by
    have : 0 < tickets.length := List.length_pos.mpr h
    exact_mod_cast this
  have hc : (closedCount tickets : ℚ) ≤ (tickets.length : ℚ) := by
    have := List.length_filter_le (fun t => t.status == ("closed")) tickets
    exact_mod_cast this
  have hx0 : 0 ≤ 100 * (closedCount tickets : ℚ) / (tickets.length : ℚ) := by positivity
  have hx1 : 100 * (closedCount tickets : ℚ) / (tickets.length : ℚ) ≤ 100 := by
    rw [div_le_iff₀ hT]
    nlinarith
  refine ⟨pyRound2 (100 * (closedCount tickets : ℚ) / (tickets.length : ℚ)), ?_, ?_, ?_⟩
  · rw [closure_rate_eq, hne]
    simp
  · exact pyRound2_nonneg hx0
  · exact pyRound2_le_100 hx1

/-- C10 witness: the bound theorem applied to a concrete one-ticket
sequence. -/
theorem closure_rate_bounds_witness :
    ∃ q : ℚ, TicketReport.closure_rate [tkClosedDated] = Except.ok q ∧ 0 ≤ q ∧ q ≤ 100 :=
  closure_rate_bounds [tkClosedDated] (List.cons_ne_nil _ _)

/-- C4 counterexample: the claimed sum identities fail.  A ticket whose
opened date is `NaT` is dropped by the `groupby`, so the opened-per-day
counts sum to 0 while the total is 1; a closed ticket without a close date
is counted by `closedCount` but dropped by the `groupby`, so the
closed-per-day counts sum to 1 while the closed count is 2. -/
theorem per_day_sums_counterexample :
    (TicketReport.tickets_per_day [tkNoOpened] = Except.ok [] ∧
      sumCounts [] = 0 ∧ ([tkNoOpened] : List Ticket).length = 1) ∧
    (TicketReport.closed_tickets_per_day [tkClosedDated, tkClosedNoDate]
        = Except.ok [(6, 1)] ∧
      sumCounts [(6, 1)] = 1 ∧ closedCount [tkClosedDated, tkClosedNoDate] = 2) :=
  ⟨⟨rfl, rfl, rfl⟩, ⟨rfl, rfl, rfl⟩⟩

/-- C4 amended: whenever `tickets_per_day()` returns, its counts sum to
the number of tickets with a present opened date, and whenever
`closed_tickets_per_day()` returns, its counts sum to the number of
tickets with status `closed` and a present close date. -/
theorem per_day_sums (tickets : List Ticket) :
    (∀ l, TicketReport.tickets_per_day tickets = Except.ok l →
        sumCounts l = (tickets.filterMap (fun t => t.date_opened)).length) ∧
    (∀ l, TicketReport.closed_tickets_per_day tickets = Except.ok l →
        sumCounts l = ((tickets.filter (fun t => t.status == ("closed"))).filterMap
            (fun t => t.date_closed)).length) := by
  constructor
  · intro l hl
    cases tickets with
    | nil => exact Except.noConfusion hl
    | cons a rest =>
      injection hl with h
      rw [← h, sumCounts_groupCount]
      exact length_filterMap_map _ _ _
  · intro l hl
    cases tickets with
    | nil => exact Except.noConfusion hl
    | cons a rest =>
      have hred : TicketReport.closed_tickets_per_day (a :: rest)
          = if (a :: rest).all (fun t => t.date_closed.isNone)
            then Except.error PyError.attributeError
            else Except.ok (groupCount
              (((a :: rest).filter (fun t => t.status == ("closed"))).filterMap
                (fun t => t.date_closed.map (·.day)))) := rfl
      rw [hred] at hl
      split_ifs at hl
      injection hl with h
      rw [← h, sumCounts_groupCount]
      exact length_filterMap_map _ _ _

/-- C4 witness: the amended sum identities applied to a concrete
one-ticket sequence. -/
theorem per_day_sums_witness :
    sumCounts [(5, 1)] = ([tkClosedDated].filterMap (fun t => t.date_opened)).length ∧
    sumCounts [(6, 1)] = (([tkClosedDated].filter (fun t => t.status == ("closed"))).filterMap
        (fun t => t.date_closed)).length :=
  ⟨(per_day_sums [tkClosedDated]).1 [(5, 1)] rfl,
   (per_day_sums [tkClosedDated]).2 [(6, 1)] rfl⟩

/-- C3: a ticket constructed from a status that lower-cases to `closed`
and a missing close date is counted by the closed count, but whenever
`closed_tickets_per_day()` returns buckets for a sequence starting with
that ticket, they are exactly the buckets of the remaining tickets: the
ticket contributes to none of them. -/
theorem mixed_case_closed_without_date (id : String) (ro : RawDate) (cat s : String)
    (hs : pyLower s = "closed") (t : Ticket)
    (ht : Tickets.init id ro RawDate.na cat s = Except.ok t) (rest : List Ticket) :
    closedCount (t :: rest) = closedCount rest + 1 ∧
    ∀ l, TicketReport.closed_tickets_per_day (t :: rest) = Except.ok l →
      l = groupCount ((rest.filter (fun u => u.status == ("closed"))).filterMap
            (fun u => u.date_closed.map (·.day))) := by
  have hfields : t.status = "closed" ∧ t.date_closed = none := by
    cases ro with
    | bad => exact Except.noConfusion ht
    | na =>
        injection ht with h2
        rw [← h2]
        exact ⟨hs, rfl⟩
    | ts v =>
        injection ht with h2
        rw [← h2]
        exact ⟨hs, rfl⟩
  obtain ⟨hst, hdc⟩ := hfields
  constructor
  · simp [closedCount, List.filter_cons, hst]
  · intro l hl
    have hred : TicketReport.closed_tickets_per_day (t :: rest)
        = if (t :: rest).all (fun u => u.date_closed.isNone)
          then Except.error PyError.attributeError
          else Except.ok (groupCount
            (((t :: rest).filter (fun u => u.status == ("closed"))).filterMap
              (fun u => u.date_closed.map (·.day)))) := rfl
    rw [hred] at hl
    split_ifs at hl
    injection hl with h2
    rw [← h2]
    congr 1
    simp [List.filter_cons, List.filterMap_cons, hst, hdc]

/-- C3 witness: the theorem applied to the ticket built from status
`Closed` with no close date, in front of one ordinary closed ticket. -/
theorem mixed_case_closed_without_date_witness :
    closedCount (tkMixedCaseClosed :: [tkClosedDated]) = closedCount [tkClosedDated] + 1 ∧
    ∀ l, TicketReport.closed_tickets_per_day (tkMixedCaseClosed :: [tkClosedDated])
        = Except.ok l →
      l = groupCount (([tkClosedDated].filter (fun u => u.status == ("closed"))).filterMap
            (fun u => u.date_closed.map (·.day))) :=
  mixed_case_closed_without_date ("10") (RawDate.ts ⟨0, 0⟩) ("c") ("Closed") rfl
    tkMixedCaseClosed rfl [tkClosedDated]

/-- C7 counterexample: construction from an open-status row that carries a
close date succeeds and stores the close date, so the claimed invariant
(close date null unless the status indicates closure) fails. -/
theorem init_sets_close_date_for_open_status :
    Tickets.init ("9") (RawDate.ts ⟨0, 0⟩) (RawDate.ts ⟨1, 0⟩) ("c") ("Open")
      = Except.ok tkOpenWithClose ∧ ¬ specTicketInvariant tkOpenWithClose := by
  refine ⟨rfl, fun hinv => ?_⟩
  have h1 : tkOpenWithClose.status = "closed" := hinv.1 (by decide)
  exact absurd h1 (by decide)

/-- C7 amended: a constructed ticket carries the given id and category,
the lower-cased raw status, an opened date that is absent exactly when the
raw opened field was missing, and a close date that is absent exactly when
the raw close field was missing — independently of the status. -/
theorem init_field_characterization (id : String) (ro rc : RawDate) (cat st : String)
    (t : Ticket) (h : Tickets.init id ro rc cat st = Except.ok t) :
    t.ticket_id = id ∧ t.category = cat ∧ t.status = pyLower st ∧
    (t.date_opened = none ↔ ro = RawDate.na) ∧
    (t.date_closed = none ↔ rc = RawDate.na) := by
  cases ro <;> cases rc <;>
    first
    | exact Except.noConfusion h
    | (injection h with h2
       rw [← h2]
       simp)

/-- C7 witness: the field characterisation applied to a concrete
construction. -/
theorem init_field_characterization_witness :
    tkOpenWithClose.ticket_id = "9" ∧ tkOpenWithClose.category = "c" ∧
    tkOpenWithClose.status = pyLower ("Open") ∧
    (tkOpenWithClose.date_opened = none ↔ RawDate.ts ⟨0, 0⟩ = RawDate.na) ∧
    (tkOpenWithClose.date_closed = none ↔ RawDate.ts ⟨1, 0⟩ = RawDate.na) :=
  init_field_characterization ("9") (RawDate.ts ⟨0, 0⟩) (RawDate.ts ⟨1, 0⟩) ("c") ("Open")
    tkOpenWithClose rfl

/-- C5 counterexample: on the empty ticket sequence
`category_distribution()` does not return a mapping at all; the category
column of the empty DataFrame does not exist and `KeyError` is raised. -/
theorem category_distribution_empty_keyError :
    TicketReport.category_distribution [] = Except.error PyError.keyError := rfl

/-- C5 amended: on every non-empty ticket sequence
`category_distribution()` returns a mapping whose keys are exactly the
distinct categories (the category of each ticket appears exactly once),
with each key mapped to its number of occurrences, ordered by
descending count with ties broken by first-seen category order. -/
theorem category_distribution_mapping_sorted (tickets : List Ticket) (h : tickets ≠ []) :
    ∃ l, TicketReport.category_distribution tickets = Except.ok l ∧
      (l.map Prod.fst).Perm ((tickets.map (fun t => t.category)).dedup) ∧
      (∀ t ∈ tickets, t.category ∈ l.map Prod.fst) ∧
      (∀ p ∈ l, p.2 = (tickets.map (fun t => t.category)).count p.1) ∧
      l.Sorted (vcLe (tickets.map (fun t => t.category))) := by
  cases tickets with
  | nil => exact absurd rfl h
  | cons a rest =>
    have hperm : (valueCounts ((a :: rest).map (fun t => t.category))).Perm
        (((a :: rest).map (fun t => t.category)).dedup.map
          (fun c => (c, ((a :: rest).map (fun t => t.category)).count c))) :=
      List.perm_insertionSort _ _
    have hkeys : ((valueCounts ((a :: rest).map (fun t => t.category))).map Prod.fst).Perm
        (((a :: rest).map (fun t => t.category)).dedup) := by
      have h1 := hperm.map Prod.fst
      rw [map_fst_map_pair] at h1
      exact h1
    refine ⟨_, rfl, hkeys, ?_, ?_, ?_⟩
    · intro t htm
      have hmem : t.category ∈ ((a :: rest).map (fun u => u.category)).dedup :=
        List.mem_dedup.mpr (List.mem_map_of_mem _ htm)
      exact hkeys.mem_iff.mpr hmem
    · intro p hp
      have hp' : p ∈ ((a :: rest).map (fun t => t.category)).dedup.map
          (fun c => (c, ((a :: rest).map (fun t => t.category)).count c)) :=
        hperm.mem_iff.mp hp
      obtain ⟨c, _, rfl⟩ := List.mem_map.mp hp'
      rfl
    · haveI h2 : IsTotal (String × Nat) (vcLe ((a :: rest).map (fun t => t.category))) :=
        ⟨vcLe_total _⟩
      haveI h3 : IsTrans (String × Nat) (vcLe ((a :: rest).map (fun t => t.category))) :=
        ⟨vcLe_trans _⟩
      exact List.sorted_insertionSort _ _

/-- C5 witness: the mapping-and-order theorem applied to a concrete
three-ticket sequence with categories network, software, network. -/
theorem category_distribution_mapping_sorted_witness :
    ∃ l, TicketReport.category_distribution [tkClosedDated, tkClosedNoDate, tkNoOpened]
        = Except.ok l ∧
      (l.map Prod.fst).Perm
        (([tkClosedDated, tkClosedNoDate, tkNoOpened].map (fun t => t.category)).dedup) ∧
      (∀ t ∈ [tkClosedDated, tkClosedNoDate, tkNoOpened], t.category ∈ l.map Prod.fst) ∧
      (∀ p ∈ l, p.2 = ([tkClosedDated, tkClosedNoDate, tkNoOpened].map
          (fun t => t.category)).count p.1) ∧
      l.Sorted (vcLe ([tkClosedDated, tkClosedNoDate, tkNoOpened].map (fun t => t.category))) :=
  category_distribution_mapping_sorted [tkClosedDated, tkClosedNoDate, tkNoOpened]
    (List.cons_ne_nil _ _)
